import Mathlib

/-!
Shallow embedding of the encrypted credential store of fasttoggl
(src/fasttoggl/core/credentials.py).

Pure helpers become Lean functions.  The process state (the store file
and the module-global master-password cache) is passed explicitly
through a state record; Python exceptions become `Except` results.
The cryptography library's PBKDF2 key derivation and Fernet
authenticated encryption are modelled as an idealized scheme: key
derivation is a deterministic injective function of the password, a
Fernet token carries its initialization material and binds the key and
plaintext, and decryption succeeds exactly under the key that produced
the token (fails closed with `InvalidToken` otherwise).  The base64
encode/decode layer around the Fernet token is a bijection on its
image and is elided: a base64-encoded token stored inside a JSON
string is represented by the dedicated `Json.tok` constructor.
-/

/-- DerivedKey is the output of `CredentialsManager._generate_key`
(PBKDF2-HMAC-SHA256 with the fixed salt and 100000 iterations),
modelled as an idealized injective key-derivation function of the
master password. -/
structure DerivedKey where
  pw : String
deriving DecidableEq

/-- Embeds `CredentialsManager._generate_key`: with a fixed salt the
derived key is a deterministic function of the password alone. -/
def generate_key (password : String) : DerivedKey :=
  DerivedKey.mk password

/-- FernetToken is the token produced by `Fernet.encrypt` (version,
initialization material, ciphertext, integrity tag), modelled ideally
as the initialization material together with the key and plaintext the
ciphertext and tag bind. -/
structure FernetToken where
  iv : Nat
  key : DerivedKey
  plain : String
deriving DecidableEq

/-- PyError enumerates the Python exceptions the paths of
credentials.py can raise: `json.JSONDecodeError` from `json.load`,
`KeyError` from `credentials[k]`, `TypeError` from indexing a
non-dict, `AttributeError` from calling a method on a non-dict or
non-string, `cryptography.fernet.InvalidToken` from `Fernet.decrypt`
or the base64 layer, and the `ValueError` raised on master-password
mismatch (the spec's PasswordMismatchError). -/
inductive PyError where
  | jsonDecodeError
  | keyError
  | typeError
  | attributeError
  | invalidToken
  | valueError
deriving DecidableEq

/-- Fernet encryption under a derived key with the fresh
initialization material `iv` of that call (the per-call randomness is
made an explicit argument). -/
def fernet_encrypt (key : DerivedKey) (iv : Nat) (plaintext : String) : FernetToken :=
  FernetToken.mk iv key plaintext

/-- Fernet decryption: verifies the integrity tag against the key and
fails closed with `InvalidToken` under any other key. -/
def fernet_decrypt (key : DerivedKey) (t : FernetToken) : Except PyError String :=
  if t.key = key then Except.ok t.plain else Except.error PyError.invalidToken

/-- Json values as read and written by `json.load` / `json.dump`,
restricted to the shapes credentials.py manipulates.  `tok` is a JSON
string holding the base64 encoding of a Fernet token; `str` is any
other string. -/
inductive Json where
  | null
  | str (s : String)
  | tok (t : FernetToken)
  | obj (kvs : List (String × Json))

/-- Lookup of a key in a JSON object's key/value list (Python dicts
have unique keys; first match suffices). -/
def lookupKey : List (String × Json) → String → Option Json
  | [], _ => none
  | (k, v) :: rest, key => if k = key then some v else lookupKey rest key

/-- Python truthiness of a JSON value: `None`, the empty string and
the empty dict are falsy. -/
def Json.truthy : Json → Bool
  | Json.null => false
  | Json.str s => !(s == "")
  | Json.tok _ => true
  | Json.obj kvs => !(kvs.isEmpty)

/-- Python `x or d` on JSON values. -/
def pyOr (x d : Json) : Json :=
  if x.truthy then x else d

/-- Python `x or d` where `x` is an optional string argument (`None`
and the empty string both fall back to the default). -/
def pyOrStr : Option String → String → String
  | some s, d => if s = "" then d else s
  | none, d => d

/-- Python `credentials[k]`: the value when present, `KeyError` when
the key is absent, `TypeError` when the value indexed is not a dict. -/
def Json.index (j : Json) (k : String) : Except PyError Json :=
  match j with
  | Json.obj kvs =>
    match lookupKey kvs k with
    | some v => Except.ok v
    | none => Except.error PyError.keyError
  | _ => Except.error PyError.typeError

/-- Python `credentials.get(k)`: the value, `None` (here `Json.null`)
when the key is absent, `AttributeError` when the receiver is not a
dict. -/
def Json.get (j : Json) (k : String) : Except PyError Json :=
  match j with
  | Json.obj kvs => Except.ok ((lookupKey kvs k).getD Json.null)
  | _ => Except.error PyError.attributeError

/-- Content of the credentials file when it exists: either text that
`json.load` rejects, or a parsed JSON value. -/
inductive FileContent where
  | malformed
  | wellFormed (j : Json)

/-- Embeds `json.load` on an open credentials file: raises
`JSONDecodeError` on malformed content. -/
def parseFile : FileContent → Except PyError Json
  | FileContent.malformed => Except.error PyError.jsonDecodeError
  | FileContent.wellFormed j => Except.ok j

/-- The process state the CredentialsManager touches: the credentials
file (`none` when `os.path.exists` is false) and the module-global
`_MASTER_PASSWORD_CACHE`. -/
structure FTState where
  file : Option FileContent
  cache : Option String

/-- Embeds `_get_master_password`: returns the cached master password,
otherwise consumes the interactive input `promptInput` and caches it. -/
def get_master_password (promptInput : String) (s : FTState) : String × FTState :=
  match s.cache with
  | some pw => (pw, s)
  | none => (promptInput, { s with cache := some promptInput })

/-- Embeds `_encrypt_password`: derive the key from the master
password, Fernet-encrypt with the fresh initialization material of the
call, base64-encode for storage. -/
def encrypt_password (password master_password : String) (iv : Nat) : FernetToken :=
  fernet_encrypt (generate_key master_password) iv password

/-- Embeds `_decrypt_password` applied to the JSON value found in the
record: base64-decode then Fernet-decrypt.  A `tok` value is a
well-formed stored token; a plain string fails the base64/Fernet parse
or integrity check; a non-string raises `AttributeError` at
`.encode()` before any decryption. -/
def decrypt_password (encrypted : Json) (master_password : String) : Except PyError String :=
  match encrypted with
  | Json.tok t => fernet_decrypt (generate_key master_password) t
  | Json.str _ => Except.error PyError.invalidToken
  | _ => Except.error PyError.attributeError

/-- Arguments of `save_credentials` with their Python defaults. -/
structure SaveArgs where
  email : String
  api_token : String
  llm_provider : Option String := none
  llm_model : Option String := none
  llm_api_key : Option String := none
  language : Option String := none

/-- Embeds `save_credentials`.  The two `getpass` prompts are the
explicit inputs `masterInput` and `confirmInput` (the session cache is
not consulted); `iv1` and `iv2` are the fresh initialization material
of the up-to-two encryptions.  A mismatch raises `ValueError` before
anything is written; otherwise the full record is written as the new
file content. -/
def save_credentials (args : SaveArgs) (masterInput confirmInput : String)
    (iv1 iv2 : Nat) (s : FTState) : Except PyError Unit × FTState :=
  if masterInput ≠ confirmInput then
    (Except.error PyError.valueError, s)
  else
    let encrypted := encrypt_password args.api_token masterInput iv1
    let base : List (String × Json) :=
      [("email", Json.str args.email),
       ("encrypted_password", Json.tok encrypted),
       ("language", Json.str (pyOrStr args.language "pt-BR"))]
    let credentials : List (String × Json) :=
      match args.llm_api_key with
      | some llmKey =>
        if llmKey = "" then base
        else
          base ++ [("llm", Json.obj
            [("provider", Json.str (pyOrStr args.llm_provider "google")),
             ("model", Json.str (pyOrStr args.llm_model "gemini-2.5-flash")),
             ("encrypted_key", Json.tok (encrypt_password llmKey masterInput iv2))])]
      | none => base
    (Except.ok (), { s with file := some (FileContent.wellFormed (Json.obj credentials)) })

/-- Embeds `load_credentials`.  Returns `(None, None)` when the file
does not exist; `json.load` failures propagate (they are outside the
try block); the try block covers the record accesses and the
decryption, and its except handler clears the cache and returns
`(None, None)`. -/
def load_credentials (promptInput : String) (s : FTState) :
    Except PyError (Option Json × Option String) × FTState :=
  match s.file with
  | none => (Except.ok (none, none), s)
  | some content =>
    match parseFile content with
    | Except.error e => (Except.error e, s)
    | Except.ok credentials =>
      let (master, s1) := get_master_password promptInput s
      match credentials.index "encrypted_password" with
      | Except.error _ => (Except.ok (none, none), { s1 with cache := none })
      | Except.ok enc =>
        match decrypt_password enc master with
        | Except.error _ => (Except.ok (none, none), { s1 with cache := none })
        | Except.ok decrypted =>
          match credentials.index "email" with
          | Except.error _ => (Except.ok (none, none), { s1 with cache := none })
          | Except.ok email => (Except.ok (some email, some decrypted), s1)

/-- Embeds `credentials_exist`. -/
def credentials_exist (s : FTState) : Bool :=
  s.file.isSome

/-- Embeds `load_llm_config`.  On a missing file returns
`(None, "gemini-2.5-flash", None)`; `json.load` and the `.get` calls
are outside the try block, so their failures propagate; only the
decryption is guarded, its except handler clearing the cache and
returning an absent key. -/
def load_llm_config (promptInput : String) (s : FTState) :
    Except PyError (Json × Json × Option String) × FTState :=
  match s.file with
  | none => (Except.ok (Json.null, (Json.str "gemini-2.5-flash", none)), s)
  | some content =>
    match parseFile content with
    | Except.error e => (Except.error e, s)
    | Except.ok credentials =>
      match credentials.get "llm" with
      | Except.error e => (Except.error e, s)
      | Except.ok llmRaw =>
        let llm := pyOr llmRaw (Json.obj [])
        match llm.get "provider" with
        | Except.error e => (Except.error e, s)
        | Except.ok providerRaw =>
          let provider := pyOr providerRaw (Json.str "google")
          match llm.get "model" with
          | Except.error e => (Except.error e, s)
          | Except.ok modelRaw =>
            let model := pyOr modelRaw (Json.str "gemini-2.5-flash")
            match llm.get "encrypted_key" with
            | Except.error e => (Except.error e, s)
            | Except.ok encryptedKey =>
              match encryptedKey with
              | Json.null => (Except.ok (provider, (model, none)), s)
              | _ =>
                let (master, s1) := get_master_password promptInput s
                match decrypt_password encryptedKey master with
                | Except.ok key => (Except.ok (provider, (model, some key)), s1)
                | Except.error _ =>
                  (Except.ok (provider, (model, none)), { s1 with cache := none })

/-- Embeds `load_language`: the stored language, `"pt-BR"` when the
file is missing, unreadable, or the field is absent or falsy.  The
whole body is inside try/except, never prompts and never decrypts, and
leaves the state untouched (it is a pure function of the state). -/
def load_language (s : FTState) : Json :=
  match s.file with
  | none => Json.str "pt-BR"
  | some content =>
    match parseFile content with
    | Except.error _ => Json.str "pt-BR"
    | Except.ok credentials =>
      match credentials.get "language" with
      | Except.error _ => Json.str "pt-BR"
      | Except.ok language => pyOr language (Json.str "pt-BR")

/-! Theorems settling the claims. -/

/-- C3: for all master passwords P and plaintext secrets S (and any
fresh initialization material), decrypting with the key derived from P
the token produced by encrypting S under the key derived from P yields
exactly S. -/
theorem C3_encrypt_decrypt_roundtrip (P S : String) (iv : Nat) :
    decrypt_password (Json.tok (encrypt_password S P iv)) P = Except.ok S := by
  simp [decrypt_password, encrypt_password, fernet_encrypt, fernet_decrypt]

/-- C5: for all master passwords P1 and P2 with P1 ≠ P2 and every
plaintext S, decrypting with the key derived from P2 a token encrypted
under the key derived from P1 fails with the authentication error
(Fernet's InvalidToken). -/
theorem C5_wrong_key_rejected (P1 P2 S : String) (iv : Nat) (h : P1 ≠ P2) :
    decrypt_password (Json.tok (encrypt_password S P1 iv)) P2 =
      Except.error PyError.invalidToken := by
  simp [decrypt_password, encrypt_password, fernet_encrypt, fernet_decrypt, generate_key]
  intro hk
  exact absurd hk h

/-- Witness for C5 at concrete inputs. -/
theorem C5_wrong_key_rejected_witness :
    "hunter2" ≠ "hunter3" ∧
      decrypt_password (Json.tok (encrypt_password "tok123" "hunter2" 0)) "hunter3" =
        Except.error PyError.invalidToken :=
  ⟨by decide, C5_wrong_key_rejected "hunter2" "hunter3" "tok123" 0 (by decide)⟩

/-- C9: encrypting the same plaintext twice under the same derived key
with distinct fresh initialization material yields two different
stored tokens, and both tokens decrypt under that key to the original
plaintext. -/
theorem C9_ciphertext_nondeterminism (P S : String) (iv1 iv2 : Nat) (h : iv1 ≠ iv2) :
    encrypt_password S P iv1 ≠ encrypt_password S P iv2 ∧
      decrypt_password (Json.tok (encrypt_password S P iv1)) P = Except.ok S ∧
      decrypt_password (Json.tok (encrypt_password S P iv2)) P = Except.ok S := by
  refine ⟨?_, ?_, ?_⟩
  · intro hEq
    apply h
    exact congrArg FernetToken.iv hEq
  · simp [decrypt_password, encrypt_password, fernet_encrypt, fernet_decrypt]
  · simp [decrypt_password, encrypt_password, fernet_encrypt, fernet_decrypt]

/-- Witness for C9 at concrete inputs. -/
theorem C9_ciphertext_nondeterminism_witness :
    (0 : Nat) ≠ 1 ∧
      (encrypt_password "s" "p" 0 ≠ encrypt_password "s" "p" 1 ∧
        decrypt_password (Json.tok (encrypt_password "s" "p" 0)) "p" = Except.ok "s" ∧
        decrypt_password (Json.tok (encrypt_password "s" "p" 1)) "p" = Except.ok "s") :=
  ⟨by decide, C9_ciphertext_nondeterminism "p" "s" 0 1 (by decide)⟩

/-- C7: when the store file does not exist, load_credentials returns
the empty result with the state (in particular the password cache)
untouched — so no prompt is consumed — and load_language returns the
default "pt-BR". -/
theorem C7_missing_store (pi : String) (c : Option String) :
    load_credentials pi ⟨none, c⟩ = (Except.ok (none, none), ⟨none, c⟩) ∧
      load_language ⟨none, c⟩ = Json.str "pt-BR" :=
  ⟨rfl, rfl⟩

/-- C4: when the two entered master passwords differ, save_credentials
raises the mismatch ValueError (the spec's PasswordMismatchError) and
the store file component of the state is exactly what it was before
the call, for every prior content. -/
theorem C4_mismatch_abort (args : SaveArgs) (p1 p2 : String) (iv1 iv2 : Nat)
    (s : FTState) (h : p1 ≠ p2) :
    (save_credentials args p1 p2 iv1 iv2 s).1 = Except.error PyError.valueError ∧
      (save_credentials args p1 p2 iv1 iv2 s).2.file = s.file := by
  simp [save_credentials, h]

/-- Witness for C4 at concrete inputs. -/
theorem C4_mismatch_abort_witness :
    "hunter2" ≠ "hunter3" ∧
      ((save_credentials ⟨"a@b.com", "tok123", none, none, none, none⟩
          "hunter2" "hunter3" 0 1
          ⟨some (FileContent.wellFormed (Json.obj [])), none⟩).1 =
            Except.error PyError.valueError ∧
        (save_credentials ⟨"a@b.com", "tok123", none, none, none, none⟩
          "hunter2" "hunter3" 0 1
          ⟨some (FileContent.wellFormed (Json.obj [])), none⟩).2.file =
            some (FileContent.wellFormed (Json.obj []))) :=
  ⟨by decide,
    C4_mismatch_abort ⟨"a@b.com", "tok123", none, none, none, none⟩
      "hunter2" "hunter3" 0 1
      ⟨some (FileContent.wellFormed (Json.obj [])), none⟩ (by decide)⟩

/-- C10: save_credentials neither writes the session cache (the cache
after the call, successful or aborted, is the cache before it) nor
reads it (its result and the file it writes are the same whatever the
cache holds). -/
theorem C10_save_cache_frame (args : SaveArgs) (p1 p2 : String) (iv1 iv2 : Nat)
    (f : Option FileContent) (c : Option String) :
    (save_credentials args p1 p2 iv1 iv2 ⟨f, c⟩).2.cache = c ∧
      (save_credentials args p1 p2 iv1 iv2 ⟨f, c⟩).1 =
        (save_credentials args p1 p2 iv1 iv2 ⟨f, none⟩).1 ∧
      (save_credentials args p1 p2 iv1 iv2 ⟨f, c⟩).2.file =
        (save_credentials args p1 p2 iv1 iv2 ⟨f, none⟩).2.file := by
  by_cases h : p1 = p2 <;> simp [save_credentials, h]

/-- C1 counterexample: on a store file that is present but not
well-formed JSON, load_credentials propagates the JSON parse error
instead of returning the empty result. -/
theorem C1_counterexample :
    (load_credentials "pw" ⟨some FileContent.malformed, none⟩).1 =
        Except.error PyError.jsonDecodeError ∧
      (load_credentials "pw" ⟨some FileContent.malformed, none⟩).1 ≠
        Except.ok (none, none) := by
  refine ⟨rfl, ?_⟩
  intro h
  exact Except.noConfusion h

/-- Unfolding of load_credentials on a present, well-formed store:
the remaining case analysis is on the guarded field accesses and the
decryption, every arm of which returns an ok result. -/
theorem load_credentials_wf_unfold (pi : String) (c : Option String) (j : Json) :
    load_credentials pi ⟨some (FileContent.wellFormed j), c⟩ =
      (match j.index "encrypted_password" with
       | Except.error _ => (Except.ok (none, none),
           { (get_master_password pi ⟨some (FileContent.wellFormed j), c⟩).2 with
               cache := none })
       | Except.ok enc =>
         match decrypt_password enc
             (get_master_password pi ⟨some (FileContent.wellFormed j), c⟩).1 with
         | Except.error _ => (Except.ok (none, none),
             { (get_master_password pi ⟨some (FileContent.wellFormed j), c⟩).2 with
                 cache := none })
         | Except.ok decrypted =>
           match j.index "email" with
           | Except.error _ => (Except.ok (none, none),
               { (get_master_password pi ⟨some (FileContent.wellFormed j), c⟩).2 with
                   cache := none })
           | Except.ok email =>
             (Except.ok (some email, some decrypted),
               (get_master_password pi ⟨some (FileContent.wellFormed j), c⟩).2)) := by
  cases c <;> rfl

/-- C1 amended: no load operation halts on a missing store or on a
failed decryption — load_credentials on a missing store returns the
empty result, on any present well-formed store returns an ok result,
and returns (None, None) whenever the record lacks the required
encrypted_password or email field or the stored token fails to
decrypt under the master password in use; load_llm_config on a
missing store returns its defaults and on a failed decryption returns
an absent key — but when the store content is not well-formed JSON,
load_credentials raises the JSON parse error to the caller. -/
theorem C1_amended_load_error_paths (pi : String) (c : Option String)
    (kvs lkvs : List (String × Json)) :
    (load_credentials pi ⟨none, c⟩).1 = Except.ok (none, none) ∧
      (load_llm_config pi ⟨none, c⟩).1 =
        Except.ok (Json.null, (Json.str "gemini-2.5-flash", none)) ∧
      (∃ r, (load_credentials pi
          ⟨some (FileContent.wellFormed (Json.obj kvs)), c⟩).1 = Except.ok r) ∧
      (lookupKey kvs "encrypted_password" = none →
        (load_credentials pi ⟨some (FileContent.wellFormed (Json.obj kvs)), c⟩).1 =
          Except.ok (none, none)) ∧
      (lookupKey kvs "email" = none →
        (load_credentials pi ⟨some (FileContent.wellFormed (Json.obj kvs)), c⟩).1 =
          Except.ok (none, none)) ∧
      (∀ enc err, lookupKey kvs "encrypted_password" = some enc →
        decrypt_password enc
            (get_master_password pi
              ⟨some (FileContent.wellFormed (Json.obj kvs)), c⟩).1 =
          Except.error err →
        (load_credentials pi ⟨some (FileContent.wellFormed (Json.obj kvs)), c⟩).1 =
          Except.ok (none, none)) ∧
      (∀ enc err, lookupKey kvs "llm" = some (Json.obj lkvs) →
        lookupKey lkvs "encrypted_key" = some enc →
        enc ≠ Json.null →
        decrypt_password enc
            (get_master_password pi
              ⟨some (FileContent.wellFormed (Json.obj kvs)), c⟩).1 =
          Except.error err →
        ∃ provider model,
          (load_llm_config pi ⟨some (FileContent.wellFormed (Json.obj kvs)), c⟩).1 =
            Except.ok (provider, (model, none))) ∧
      (load_credentials pi ⟨some FileContent.malformed, c⟩).1 =
        Except.error PyError.jsonDecodeError := by
  refine ⟨rfl, rfl, ?_, ?_, ?_, ?_, ?_, rfl⟩
  · rw [load_credentials_wf_unfold]
    repeat' split
    all_goals exact ⟨_, rfl⟩
  · intro h
    rw [load_credentials_wf_unfold]
    have hE : (Json.obj kvs).index "encrypted_password" = Except.error PyError.keyError := by
      simp [Json.index, h]
    rw [hE]
  · intro h
    rw [load_credentials_wf_unfold]
    have hM : (Json.obj kvs).index "email" = Except.error PyError.keyError := by
      simp [Json.index, h]
    repeat' split
    all_goals simp_all
  · intro enc err h1 h2
    rw [load_credentials_wf_unfold]
    have hE : (Json.obj kvs).index "encrypted_password" = Except.ok enc := by
      simp [Json.index, h1]
    repeat' split
    all_goals simp_all
  · intro enc err hLlm hKey hNull hDec
    have hP : pyOr (Json.obj lkvs) (Json.obj []) = Json.obj lkvs := by
      cases lkvs <;> rfl
    refine ⟨pyOr ((lookupKey lkvs "provider").getD Json.null) (Json.str "google"),
      pyOr ((lookupKey lkvs "model").getD Json.null) (Json.str "gemini-2.5-flash"), ?_⟩
    cases c with
    | none =>
      rcases enc with _ | s0 | t0 | kvs0
      · exact absurd rfl hNull
      all_goals
        simp only [load_llm_config, parseFile, Json.get, hLlm, Option.getD_some, hP,
          get_master_password, hKey] at hDec ⊢
        simp only [hDec]
    | some pw =>
      rcases enc with _ | s0 | t0 | kvs0
      · exact absurd rfl hNull
      all_goals
        simp only [load_llm_config, parseFile, Json.get, hLlm, Option.getD_some, hP,
          get_master_password, hKey] at hDec ⊢
        simp only [hDec]

/-- C2 counterexample: on a non-existent store file, load_llm_config
returns None as provider, not the default "google". -/
theorem C2_counterexample :
    (load_llm_config "pw" ⟨none, none⟩).1 =
        Except.ok (Json.null, (Json.str "gemini-2.5-flash", none)) ∧
      (load_llm_config "pw" ⟨none, none⟩).1 ≠
        Except.ok (Json.str "google", (Json.str "gemini-2.5-flash", none)) := by
  refine ⟨rfl, ?_⟩
  intro h
  have h2 : (Json.null, (Json.str "gemini-2.5-flash", (none : Option String))) =
      (Json.str "google", (Json.str "gemini-2.5-flash", none)) :=
    Except.ok.inj h
  have h3 : Json.null = Json.str "google" := congrArg Prod.fst h2
  exact Json.noConfusion h3

/-- C2 amended: when the store file does not exist, load_llm_config
returns (None, "gemini-2.5-flash", absent key); when the store exists,
is well-formed and its llm block is absent, it returns the defaults
("google", "gemini-2.5-flash", absent key). -/
theorem C2_llm_defaults (pi : String) (c : Option String)
    (kvs : List (String × Json)) (h : lookupKey kvs "llm" = none) :
    (load_llm_config pi ⟨none, c⟩).1 =
        Except.ok (Json.null, (Json.str "gemini-2.5-flash", none)) ∧
      (load_llm_config pi ⟨some (FileContent.wellFormed (Json.obj kvs)), c⟩).1 =
        Except.ok (Json.str "google", (Json.str "gemini-2.5-flash", none)) := by
  constructor
  · rfl
  · simp [load_llm_config, parseFile, Json.get, h, pyOr, Json.truthy, lookupKey]

/-- Witness for the amended C2 at concrete inputs. -/
theorem C2_llm_defaults_witness :
    lookupKey ([] : List (String × Json)) "llm" = none ∧
      ((load_llm_config "x" ⟨none, none⟩).1 =
          Except.ok (Json.null, (Json.str "gemini-2.5-flash", none)) ∧
        (load_llm_config "x" ⟨some (FileContent.wellFormed (Json.obj [])), none⟩).1 =
          Except.ok (Json.str "google", (Json.str "gemini-2.5-flash", none))) :=
  ⟨rfl, C2_llm_defaults "x" none [] rfl⟩

/-- C8: every record a (matching-password, hence successful)
save_credentials call writes contains the email, an encrypted_password
token and a language field equal to the supplied language or the
default "pt-BR"; and whenever the record carries an llm entry it is a
block with all three of provider (supplied or "google"), model
(supplied or "gemini-2.5-flash") and an encrypted_key token. -/
theorem C8_record_shape (args : SaveArgs) (p : String) (iv1 iv2 : Nat) (s : FTState) :
    ∃ kvs, (save_credentials args p p iv1 iv2 s).2.file =
        some (FileContent.wellFormed (Json.obj kvs)) ∧
      lookupKey kvs "email" = some (Json.str args.email) ∧
      (∃ t, lookupKey kvs "encrypted_password" = some (Json.tok t)) ∧
      lookupKey kvs "language" = some (Json.str (pyOrStr args.language "pt-BR")) ∧
      (∀ j, lookupKey kvs "llm" = some j →
        ∃ t2, j = Json.obj
          [("provider", Json.str (pyOrStr args.llm_provider "google")),
           ("model", Json.str (pyOrStr args.llm_model "gemini-2.5-flash")),
           ("encrypted_key", Json.tok t2)]) := by
  rcases args with ⟨email, api_token, llm_provider, llm_model, llm_api_key, language⟩
  rcases llm_api_key with _ | llmKey
  · refine ⟨[("email", Json.str email),
      ("encrypted_password", Json.tok (encrypt_password api_token p iv1)),
      ("language", Json.str (pyOrStr language "pt-BR"))], ?_, ?_, ⟨encrypt_password api_token p iv1, ?_⟩, ?_, ?_⟩
    · simp [save_credentials]
    · simp [lookupKey]
    · simp [lookupKey]
    · simp [lookupKey]
    · intro j hj
      simp [lookupKey] at hj
  · by_cases hk : llmKey = ""
    · refine ⟨[("email", Json.str email),
        ("encrypted_password", Json.tok (encrypt_password api_token p iv1)),
        ("language", Json.str (pyOrStr language "pt-BR"))], ?_, ?_, ⟨encrypt_password api_token p iv1, ?_⟩, ?_, ?_⟩
      · simp [save_credentials, hk]
      · simp [lookupKey]
      · simp [lookupKey]
      · simp [lookupKey]
      · intro j hj
        simp [lookupKey] at hj
    · refine ⟨[("email", Json.str email),
        ("encrypted_password", Json.tok (encrypt_password api_token p iv1)),
        ("language", Json.str (pyOrStr language "pt-BR")),
        ("llm", Json.obj
          [("provider", Json.str (pyOrStr llm_provider "google")),
           ("model", Json.str (pyOrStr llm_model "gemini-2.5-flash")),
           ("encrypted_key", Json.tok (encrypt_password llmKey p iv2))])],
        ?_, ?_, ⟨encrypt_password api_token p iv1, ?_⟩, ?_, ?_⟩
      · simp [save_credentials, hk]
      · simp [lookupKey]
      · simp [lookupKey]
      · simp [lookupKey]
      · intro j hj
        simp [lookupKey] at hj
        exact ⟨encrypt_password llmKey p iv2, hj.symm⟩

/-- C6: with a record whose token was encrypted under master password
P and a cache holding a different password Q, load_credentials catches
the authentication failure, returns the empty result, clears the cache
and leaves the file intact; the next call therefore consumes its
prompt input, and supplying P returns the stored email and the
decrypted token. -/
theorem C6_auth_failure_invalidates_cache (e tokpt P Q pi : String) (iv : Nat)
    (lang : Json) (h : Q ≠ P) :
    (load_credentials pi ⟨some (FileContent.wellFormed (Json.obj
        [("email", Json.str e),
         ("encrypted_password", Json.tok (encrypt_password tokpt P iv)),
         ("language", lang)])), some Q⟩).1 = Except.ok (none, none) ∧
      (load_credentials pi ⟨some (FileContent.wellFormed (Json.obj
        [("email", Json.str e),
         ("encrypted_password", Json.tok (encrypt_password tokpt P iv)),
         ("language", lang)])), some Q⟩).2 =
        ⟨some (FileContent.wellFormed (Json.obj
          [("email", Json.str e),
           ("encrypted_password", Json.tok (encrypt_password tokpt P iv)),
           ("language", lang)])), none⟩ ∧
      (load_credentials P
        (load_credentials pi ⟨some (FileContent.wellFormed (Json.obj
          [("email", Json.str e),
           ("encrypted_password", Json.tok (encrypt_password tokpt P iv)),
           ("language", lang)])), some Q⟩).2).1 =
        Except.ok (some (Json.str e), some tokpt) := by
  have h2 : ¬ (P = Q) := fun hPQ => h hPQ.symm
  refine ⟨?_, ?_, ?_⟩ <;>
    simp [load_credentials, parseFile, get_master_password, Json.index, lookupKey,
      decrypt_password, fernet_decrypt, encrypt_password, fernet_encrypt,
      generate_key, h2]

/-- Witness for C6 at concrete inputs. -/
theorem C6_auth_failure_invalidates_cache_witness :
    "wrong" ≠ "hunter2" ∧
      ((load_credentials "unused" ⟨some (FileContent.wellFormed (Json.obj
          [("email", Json.str "a@b.com"),
           ("encrypted_password", Json.tok (encrypt_password "tok123" "hunter2" 7)),
           ("language", Json.str "en-US")])), some "wrong"⟩).1 =
            Except.ok (none, none) ∧
        (load_credentials "unused" ⟨some (FileContent.wellFormed (Json.obj
          [("email", Json.str "a@b.com"),
           ("encrypted_password", Json.tok (encrypt_password "tok123" "hunter2" 7)),
           ("language", Json.str "en-US")])), some "wrong"⟩).2 =
          ⟨some (FileContent.wellFormed (Json.obj
            [("email", Json.str "a@b.com"),
             ("encrypted_password", Json.tok (encrypt_password "tok123" "hunter2" 7)),
             ("language", Json.str "en-US")])), none⟩ ∧
        (load_credentials "hunter2"
          (load_credentials "unused" ⟨some (FileContent.wellFormed (Json.obj
            [("email", Json.str "a@b.com"),
             ("encrypted_password", Json.tok (encrypt_password "tok123" "hunter2" 7)),
             ("language", Json.str "en-US")])), some "wrong"⟩).2).1 =
          Except.ok (some (Json.str "a@b.com"), some "tok123")) :=
  ⟨by decide,
    C6_auth_failure_invalidates_cache "a@b.com" "tok123" "hunter2" "wrong" "unused" 7
      (Json.str "en-US") (by decide)⟩
